import Mathlib

/-!
Shallow embedding of `src/components/upProvider.tsx` from the
miniapp-nextjs-template repository.

The component is a React context provider.  Its behaviour is modelled as a
state machine:

* `UpState` mirrors the component's `useState` fields
  (`chainId`, `accounts`, `contextAccounts`, `walletConnected`,
  `selectedAddress`, `isSearching`).
* `mkClient` / `mkReadClient` mirror the two `useMemo` blocks that build the
  viem wallet client and public client (`createWalletClient` /
  `createPublicClient`): the client exists exactly when the module-level
  `provider` handle is non-null and `chainId` is truthy, and its chain is
  `lukso` when `chainId === 42` and `luksoTestnet` otherwise.
* `initTry` mirrors the body of the `init` async function inside the effect
  (the `try` block); `init` adds the `catch` that logs the error.  Provider
  responses are supplied as `Except` values: `Except.error e` models the
  corresponding `await provider.request(...)` throwing.  The chain-id
  response is modelled as the numeric value produced by
  `Number(... as string)`.  React `setX` calls are modelled as record
  updates that take effect immediately (single-threaded event loop); an
  error between two updates leaves the earlier updates in place, exactly as
  the already-executed `setAccounts` does in the source.
* The three event handler closures (`accountsChanged`,
  `contextAccountsChanged`, `chainChanged`) are modelled as functions that
  take the captured render-scope values (`account`, `contextAccount` — the
  first elements destructured from the state arrays) as explicit
  parameters.  `handleEvent` dispatches an event to the handler: because
  the effect's dependency array is `[client, account, contextAccount]`,
  React re-registers the handlers whenever the first wallet account or the
  first context account changes, so in the sequential event-loop model the
  captured values seen by a delivered event equal the current state's first
  elements.
* `registerListeners` / `cleanupListeners` mirror the `provider.on` /
  `provider.removeListener` calls of one effect run; a `Listener` is
  identified by its event name and the id of the effect run that created
  the closure (distinct runs create distinct closure objects).
* `useUpProvider` mirrors the exported hook: it throws when the context is
  undefined and returns the context otherwise.
-/

/-- Wallet addresses (the TypeScript template type `0x${string}`) are kept
abstract as strings. -/
abbrev Address := String

/-- The two viem chain objects imported from viem/chains that this file can
select between. -/
inductive Chain where
  | lukso
  | luksoTestnet
deriving DecidableEq, Repr

/-- A created viem client (wallet client or public client); only the chain
it was created with matters to the spec. -/
structure Client where
  chain : Chain
deriving DecidableEq, Repr

/-- The `useMemo` computing `client`:
`if (provider && chainId) return createWalletClient({ chain: chainId === 42 ? lukso : luksoTestnet, ... }); return null;` -/
def mkClient (providerPresent : Bool) (chainId : Nat) : Option Client :=
  if providerPresent && chainId != 0 then
    some ⟨if chainId = 42 then Chain.lukso else Chain.luksoTestnet⟩
  else
    none

/-- The `useMemo` computing `readClient` (`createPublicClient` with the same
guard and the same chain selection). -/
def mkReadClient (providerPresent : Bool) (chainId : Nat) : Option Client :=
  if providerPresent && chainId != 0 then
    some ⟨if chainId = 42 then Chain.lukso else Chain.luksoTestnet⟩
  else
    none

/-- The component's `useState` fields. -/
structure UpState where
  chainId : Nat
  accounts : List Address
  contextAccounts : List Address
  walletConnected : Bool
  selectedAddress : Option Address
  isSearching : Bool
deriving DecidableEq, Repr

/-- The initial values passed to `useState`:
`useState<number>(0)`, `useState<...>([])`, `useState<...>([])`,
`useState(false)`, `useState<...>(null)`, `useState(false)`. -/
def initialState : UpState :=
  { chainId := 0
    accounts := []
    contextAccounts := []
    walletConnected := false
    selectedAddress := none
    isSearching := false }

/-- The provider-side data consumed by one run of `init`: the response to
`provider.request("eth_accounts", [])`, the response to
`provider.request("eth_chainId")` (already converted by `Number`), and the
current value of the `provider.contextAccounts` property.  An
`Except.error` response models the corresponding `await` throwing. -/
structure ProviderResponses where
  ethAccountsResp : Except String (List Address)
  ethChainIdResp : Except String Nat
  contextAccounts : List Address
deriving Repr

/-- The `try` block of `init`.  `s` is the component state of the render in
which the effect ran, so the `client` captured by the closure is
`mkClient providerPresent s.chainId`.  A thrown error carries the state at
the throw point, because the `setX` calls already executed keep their
effect. -/
def initTry (io : ProviderResponses) (providerPresent : Bool) (s : UpState) :
    Except (String × UpState) UpState :=
  let client := mkClient providerPresent s.chainId
  if client.isNone || !providerPresent then
    Except.ok s
  else
    match io.ethAccountsResp with
    | Except.error e => Except.error (e, s)
    | Except.ok accs =>
      let s1 := { s with accounts := accs }
      match io.ethChainIdResp with
      | Except.error e => Except.error (e, s1)
      | Except.ok cid =>
        let s2 := { s1 with chainId := cid }
        let s3 := { s2 with contextAccounts := io.contextAccounts }
        Except.ok
          { s3 with
            walletConnected :=
              accs.head?.isSome && io.contextAccounts.head?.isSome }

/-- The `init` function as called: the `catch` turns a thrown error into a
`console.error` log entry (the `Option String` component) and execution
continues with the state reached so far.  The result is always a plain
state/log pair: nothing propagates to the caller. -/
def init (io : ProviderResponses) (providerPresent : Bool) (s : UpState) :
    UpState × Option String :=
  match initTry io providerPresent s with
  | Except.ok s1 => (s1, none)
  | Except.error (e, s1) => (s1, some e)

/-- The request names one run of `init` sends to the provider, in order:
none when the guard returns early; `eth_accounts` is always sent once the
guard passes (even if it throws); `eth_chainId` is sent only after
`eth_accounts` succeeded. -/
def initRequests (io : ProviderResponses) (providerPresent : Bool)
    (s : UpState) : List String :=
  let client := mkClient providerPresent s.chainId
  if client.isNone || !providerPresent then
    []
  else
    match io.ethAccountsResp with
    | Except.error _ => ["eth_accounts"]
    | Except.ok _ => ["eth_accounts", "eth_chainId"]

/-- Events emitted by the provider that the component subscribes to. -/
inductive UpEvent where
  | accountsChanged (accs : List Address)
  | contextAccountsChanged (accs : List Address)
  | chainChanged (cid : Nat)
deriving DecidableEq, Repr

/-- The `accountsChanged` handler closure.  `contextAccount` is the value
`const [contextAccount] = contextAccounts ?? []` captured from the render
scope at effect-registration time. -/
def accountsChangedHandler (contextAccount : Option Address) (s : UpState)
    (accs : List Address) : UpState :=
  { s with
    accounts := accs
    walletConnected := accs.head?.isSome && contextAccount.isSome }

/-- The `contextAccountsChanged` handler closure.  `account` is the value
`const [account] = accounts ?? []` captured from the render scope. -/
def contextAccountsChangedHandler (account : Option Address) (s : UpState)
    (accs : List Address) : UpState :=
  { s with
    contextAccounts := accs
    walletConnected := account.isSome && accs.head?.isSome }

/-- The `chainChanged` handler closure. -/
def chainChangedHandler (s : UpState) (cid : Nat) : UpState :=
  { s with chainId := cid }

/-- Deliver one provider event to the currently registered handlers.  The
effect's dependency array `[client, account, contextAccount]` makes React
re-run the effect (re-creating the closures) whenever the first element of
either array changes, so at delivery time the captured `account` /
`contextAccount` equal the current state's first elements. -/
def handleEvent (s : UpState) : UpEvent → UpState
  | UpEvent.accountsChanged accs =>
    accountsChangedHandler s.contextAccounts.head? s accs
  | UpEvent.contextAccountsChanged accs =>
    contextAccountsChangedHandler s.accounts.head? s accs
  | UpEvent.chainChanged cid =>
    chainChangedHandler s cid

/-- One step of the component's reactive life: either a provider event is
handled, or the effect runs `init` against provider responses. -/
inductive Step where
  | ev (e : UpEvent)
  | initRun (io : ProviderResponses) (providerPresent : Bool)
deriving Repr

/-- Apply one step to the state (the log produced by `init` is not part of
component state). -/
def runStep (s : UpState) : Step → UpState
  | Step.ev e => handleEvent s e
  | Step.initRun io p => (init io p s).1

/-- Run a sequence of steps from a starting state. -/
def run (steps : List Step) (s : UpState) : UpState :=
  steps.foldl runStep s

/-- The invariant claimed by the spec: the derived `walletConnected`
boolean reflects the presence of a first element in both arrays. -/
def WalletInv (s : UpState) : Prop :=
  s.walletConnected = (s.accounts.head?.isSome && s.contextAccounts.head?.isSome)

instance (s : UpState) : Decidable (WalletInv s) := by
  unfold WalletInv
  infer_instance

/-- A listener registration on the provider: the event name together with
the id of the effect run whose closure was registered (distinct effect runs
create distinct closure objects). -/
structure Listener where
  event : String
  runId : Nat
deriving DecidableEq, Repr

/-- `provider.on(name, handler)`: appends a registration. -/
def providerOn (ls : List Listener) (l : Listener) : List Listener :=
  ls ++ [l]

/-- `provider.removeListener(name, handler)`: removes at most one matching
registration. -/
def removeListener (ls : List Listener) (l : Listener) : List Listener :=
  match ls with
  | [] => []
  | x :: xs => if x = l then xs else x :: removeListener xs l

/-- The `if (provider) { provider.on(...) x3 }` block of one effect run
with id `r`, applied to the provider's current listener table. -/
def registerListeners (providerPresent : Bool) (r : Nat)
    (ls : List Listener) : List Listener :=
  if providerPresent then
    providerOn
      (providerOn (providerOn ls ⟨"accountsChanged", r⟩) ⟨"chainChanged", r⟩)
      ⟨"contextAccountsChanged", r⟩
  else
    ls

/-- The cleanup function returned by the effect run `r` (it is returned,
and hence runs, only when the provider is present), in source order:
`removeListener("accountsChanged", ...)`,
`removeListener("contextAccountsChanged", ...)`,
`removeListener("chainChanged", ...)`. -/
def cleanupListeners (providerPresent : Bool) (r : Nat)
    (ls : List Listener) : List Listener :=
  if providerPresent then
    removeListener
      (removeListener (removeListener ls ⟨"accountsChanged", r⟩)
        ⟨"contextAccountsChanged", r⟩)
      ⟨"chainChanged", r⟩
  else
    ls

/-- The event names one effect run subscribes to via `provider.on`. -/
def subscribedEvents (providerPresent : Bool) : List String :=
  if providerPresent then
    ["accountsChanged", "chainChanged", "contextAccountsChanged"]
  else
    []

/-- The value exposed through the context (the `data` memo), minus the two
setter functions.  It carries no error field of any kind. -/
structure UpProviderContextValue where
  providerPresent : Bool
  client : Option Client
  chainId : Nat
  readClient : Option Client
  accounts : List Address
  contextAccounts : List Address
  walletConnected : Bool
  selectedAddress : Option Address
  isSearching : Bool
deriving DecidableEq, Repr

/-- The `data` memo: a pure function of the provider handle and the state. -/
def mkData (providerPresent : Bool) (s : UpState) : UpProviderContextValue :=
  { providerPresent := providerPresent
    client := mkClient providerPresent s.chainId
    chainId := s.chainId
    readClient := mkReadClient providerPresent s.chainId
    accounts := s.accounts
    contextAccounts := s.contextAccounts
    walletConnected := s.walletConnected
    selectedAddress := s.selectedAddress
    isSearching := s.isSearching }

/-- The exported `useUpProvider` hook:
`const context = useContext(UpContext); if (!context) throw new Error(...); return context;`.
`none` models the `undefined` a component outside the provider subtree
reads from the context. -/
def useUpProvider (context : Option UpProviderContextValue) :
    Except String UpProviderContextValue :=
  match context with
  | none => Except.error "useUpProvider must be used within a UpProvider"
  | some c => Except.ok c

/-! ## Theorems for the claims -/

/-- C6: when the provider reports `accountsChanged` the accounts state is
set to the event's account list; when it reports `contextAccountsChanged`
the contextAccounts state is set to the event's account list; when it
reports `chainChanged` the chainId state is set to the event's chain id.
The other two array fields are untouched by each handler. -/
theorem handlers_set_their_fields (s : UpState) (accs : List Address)
    (cid : Nat) :
    (handleEvent s (UpEvent.accountsChanged accs)).accounts = accs ∧
    (handleEvent s (UpEvent.contextAccountsChanged accs)).contextAccounts = accs ∧
    (handleEvent s (UpEvent.chainChanged cid)).chainId = cid ∧
    (handleEvent s (UpEvent.accountsChanged accs)).contextAccounts =
      s.contextAccounts ∧
    (handleEvent s (UpEvent.contextAccountsChanged accs)).accounts =
      s.accounts ∧
    (handleEvent s (UpEvent.chainChanged cid)).accounts = s.accounts ∧
    (handleEvent s (UpEvent.chainChanged cid)).contextAccounts =
      s.contextAccounts := by
  refine ⟨rfl, rfl, rfl, rfl, rfl, rfl, rfl⟩

/-- C9: called with an undefined context (outside an `UpProvider` subtree)
the hook throws the error "useUpProvider must be used within a UpProvider";
called with a defined context it returns that context without throwing. -/
theorem useUpProvider_throws_iff_outside :
    useUpProvider none =
      Except.error "useUpProvider must be used within a UpProvider" ∧
    ∀ c : UpProviderContextValue, useUpProvider (some c) = Except.ok c := by
  exact ⟨rfl, fun c => rfl⟩

/-- C10: the wallet client and the read client are `none` exactly when the
provider handle is absent or `chainId = 0`; otherwise both are created, the
two clients agree, and the chain is `lukso` when `chainId = 42` and
`luksoTestnet` for every other nonzero chain id. -/
theorem client_creation (p : Bool) (cid : Nat) :
    (mkClient p cid = none ↔ (p = false ∨ cid = 0)) ∧
    mkReadClient p cid = mkClient p cid ∧
    (p = true → cid ≠ 0 →
      mkClient p cid =
        some ⟨if cid = 42 then Chain.lukso else Chain.luksoTestnet⟩) := by
  refine ⟨?_, ?_, ?_⟩
  · unfold mkClient
    cases p <;> by_cases h : cid = 0 <;> simp [h]
  · unfold mkClient mkReadClient
    rfl
  · intro hp hcid
    unfold mkClient
    subst hp
    simp [hcid]

/-- Witness for `client_creation` at `p = true`, `cid = 42` and `cid = 4201`. -/
theorem client_creation_witness :
    mkClient true 42 = some ⟨Chain.lukso⟩ ∧
    mkClient true 4201 = some ⟨Chain.luksoTestnet⟩ := by
  refine ⟨?_, ?_⟩
  · have h := (client_creation true 42).2.2 rfl (by decide)
    simpa using h
  · have h := (client_creation true 4201).2.2 rfl (by decide)
    simpa using h

/-- C8: every request `init` sends is named `eth_accounts` or
`eth_chainId`, and every event subscribed via `provider.on` is named
`accountsChanged`, `chainChanged` or `contextAccountsChanged`. -/
theorem fixed_interface_names (io : ProviderResponses) (p : Bool)
    (s : UpState) :
    (∀ r ∈ initRequests io p s, r = "eth_accounts" ∨ r = "eth_chainId") ∧
    (∀ n ∈ subscribedEvents p,
      n = "accountsChanged" ∨ n = "chainChanged" ∨
        n = "contextAccountsChanged") := by
  constructor
  · intro r hr
    obtain ⟨aResp, cResp, ctx⟩ := io
    simp only [initRequests] at hr
    split at hr
    · simp at hr
    · cases aResp <;> (simp at hr; tauto)
  · intro n hn
    unfold subscribedEvents at hn
    split at hn
    · simp at hn
      tauto
    · simp at hn

/-- Witness for `fixed_interface_names`: with the provider present,
`chainId = 42` and a successful accounts response, `eth_accounts` is among
the requests sent, and the theorem classifies it. -/
theorem fixed_interface_names_witness :
    "eth_accounts" = "eth_accounts" ∨ "eth_accounts" = "eth_chainId" :=
  (fixed_interface_names ⟨Except.ok ["0xa"], Except.ok 42, []⟩ true
    { initialState with chainId := 42 }).1 "eth_accounts" (by decide)

/-- C2 counterexample: on mount the state is `initialState`, whose
`chainId` is `0`, so the memoized `client` is `none` and `init` returns at
the `if (!client || !provider) return` guard without sending any request.
Even with the provider present and responses available
(`eth_accounts = ["0xa"]`, `eth_chainId = 42`), the accounts and chainId
fields keep their initial values instead of the query results, and no
request is sent at all. -/
theorem init_on_mount_does_not_query :
    (init ⟨Except.ok ["0xa"], Except.ok 42, []⟩ true initialState).1.accounts
        = [] ∧
    (init ⟨Except.ok ["0xa"], Except.ok 42, []⟩ true initialState).1.chainId
        = 0 ∧
    initRequests ⟨Except.ok ["0xa"], Except.ok 42, []⟩ true initialState
        = [] := by
  refine ⟨rfl, rfl, rfl⟩

/-- C2 amended: whenever the effect runs in a render where the memoized
client is non-null (which forces the provider to be present and
`chainId ≠ 0`) and both queries respond successfully, `init` populates the
accounts field with the `eth_accounts` result and the chainId field with
the `eth_chainId` result. -/
theorem init_populates_when_client_exists (io : ProviderResponses)
    (p : Bool) (s : UpState) (c : Client) (accs : List Address) (cid : Nat)
    (hc : mkClient p s.chainId = some c)
    (ha : io.ethAccountsResp = Except.ok accs)
    (hcid : io.ethChainIdResp = Except.ok cid) :
    (init io p s).1.accounts = accs ∧ (init io p s).1.chainId = cid := by
  have hp : p = true := by
    by_contra hp
    rw [Bool.not_eq_true] at hp
    subst hp
    simp [mkClient] at hc
  subst hp
  unfold init initTry
  rw [hc, ha, hcid]
  simp

/-- Witness for `init_populates_when_client_exists` at a state with
`chainId = 42` and successful responses. -/
theorem init_populates_when_client_exists_witness :
    (init ⟨Except.ok ["0xa"], Except.ok 4201, ["0xc"]⟩ true
        { initialState with chainId := 42 }).1.accounts = ["0xa"] ∧
    (init ⟨Except.ok ["0xa"], Except.ok 4201, ["0xc"]⟩ true
        { initialState with chainId := 42 }).1.chainId = 4201 :=
  init_populates_when_client_exists
    ⟨Except.ok ["0xa"], Except.ok 4201, ["0xc"]⟩ true
    { initialState with chainId := 42 } ⟨Chain.lukso⟩ ["0xa"] 4201
    (by decide) rfl rfl

/-- C4: every error thrown inside the `try` block of `init` is caught: the
call still returns a state (the one reached at the throw point, with no
error stored in any `UpState` field) paired with the logged message, so
nothing propagates to the caller; and no request is retried, since each of
the two request names is sent at most once per run. -/
theorem init_catches_and_logs (io : ProviderResponses) (p : Bool)
    (s s1 : UpState) (e : String)
    (h : initTry io p s = Except.error (e, s1)) :
    init io p s = (s1, some e) ∧
    (initRequests io p s).count "eth_accounts" ≤ 1 ∧
    (initRequests io p s).count "eth_chainId" ≤ 1 := by
  refine ⟨?_, ?_, ?_⟩
  · unfold init
    rw [h]
  · obtain ⟨aResp, cResp, ctx⟩ := io
    simp only [initRequests]
    split
    · simp
    · cases aResp <;> simp [List.count_cons]
  · obtain ⟨aResp, cResp, ctx⟩ := io
    simp only [initRequests]
    split
    · simp
    · cases aResp <;> simp [List.count_cons]

/-- Witness for `init_catches_and_logs`: with `chainId = 42` the guard
passes and a throwing `eth_accounts` request is caught and logged, leaving
the state unchanged. -/
theorem init_catches_and_logs_witness :
    init ⟨Except.error "boom", Except.ok 42, []⟩ true
        { initialState with chainId := 42 } =
      ({ initialState with chainId := 42 }, some "boom") ∧
    (initRequests ⟨Except.error "boom", Except.ok 42, []⟩ true
        { initialState with chainId := 42 }).count "eth_accounts" ≤ 1 ∧
    (initRequests ⟨Except.error "boom", Except.ok 42, []⟩ true
        { initialState with chainId := 42 }).count "eth_chainId" ≤ 1 :=
  init_catches_and_logs ⟨Except.error "boom", Except.ok 42, []⟩ true
    { initialState with chainId := 42 } { initialState with chainId := 42 }
    "boom" rfl

/-- The two initialization requests performed in the opposite order
(`eth_chainId` first, then `eth_accounts`).  This variant follows the
spec's words for claim C7 ("ordering between them is irrelevant"); it is
not in the source. -/
def initTrySwapped (io : ProviderResponses) (providerPresent : Bool)
    (s : UpState) : Except (String × UpState) UpState :=
  let client := mkClient providerPresent s.chainId
  if client.isNone || !providerPresent then
    Except.ok s
  else
    match io.ethChainIdResp with
    | Except.error e => Except.error (e, s)
    | Except.ok cid =>
      let s1 := { s with chainId := cid }
      match io.ethAccountsResp with
      | Except.error e => Except.error (e, s1)
      | Except.ok accs =>
        let s2 := { s1 with accounts := accs }
        let s3 := { s2 with contextAccounts := io.contextAccounts }
        Except.ok
          { s3 with
            walletConnected :=
              accs.head?.isSome && io.contextAccounts.head?.isSome }

/-- The swapped-order `init` with the same catch. -/
def initSwapped (io : ProviderResponses) (providerPresent : Bool)
    (s : UpState) : UpState × Option String :=
  match initTrySwapped io providerPresent s with
  | Except.ok s1 => (s1, none)
  | Except.error (e, s1) => (s1, some e)

/-- C7: for every pair of provider responses (both requests answering
successfully, i.e. neither throwing) and every start state, performing the
two initialization requests in the opposite order yields exactly the same
result as the implemented order, because the two requests populate the
independent fields `accounts` and `chainId`. -/
theorem init_order_irrelevant (io : ProviderResponses) (p : Bool)
    (s : UpState) (accs : List Address) (cid : Nat)
    (ha : io.ethAccountsResp = Except.ok accs)
    (hcid : io.ethChainIdResp = Except.ok cid) :
    initSwapped io p s = init io p s := by
  unfold init initSwapped initTry initTrySwapped
  rw [ha, hcid]

/-- Witness for `init_order_irrelevant` at concrete successful responses. -/
theorem init_order_irrelevant_witness :
    initSwapped ⟨Except.ok ["0xa"], Except.ok 42, ["0xc"]⟩ true
        { initialState with chainId := 4201 } =
      init ⟨Except.ok ["0xa"], Except.ok 42, ["0xc"]⟩ true
        { initialState with chainId := 4201 } :=
  init_order_irrelevant ⟨Except.ok ["0xa"], Except.ok 42, ["0xc"]⟩ true
    { initialState with chainId := 4201 } ["0xa"] 42 rfl rfl

/-- C1 counterexample: a reachable run in which, after an initialization
run completes (its error caught and logged), `walletConnected` is `true`
while the accounts array has no first element.  The run from the initial
state: a `chainChanged 42` event (making the client non-null), a fully
successful `init` run (accounts `["0xa"]`, chain id `42`, context accounts
`["0xc"]`, which sets `walletConnected := true`), then an `init` run —
triggered by the effect re-running after its `account` and
`contextAccount` dependencies changed — in which `eth_accounts` answers
`[]` and `eth_chainId` throws: `setAccounts([])` has already executed, the
error is caught, and `setWalletConnected` is never reached, so the flag
stays `true` against the now-empty accounts array. -/
theorem walletConnected_inv_cex :
    ¬ WalletInv
      (run
        [Step.ev (UpEvent.chainChanged 42),
         Step.initRun ⟨Except.ok ["0xa"], Except.ok 42, ["0xc"]⟩ true,
         Step.initRun ⟨Except.ok [], Except.error "network error", ["0xc"]⟩
           true]
        initialState) := by
  decide

/-- C1 amended: after each provider event is handled, and after each
initialization run that completes without a caught error (including runs
that return early at the null-client guard), `walletConnected` is `true`
iff the accounts array and the contextAccounts array both have a first
element; an initialization run whose `eth_chainId` query throws after the
accounts update may leave the flag stale. -/
theorem walletConnected_inv_preserved (s : UpState) (e : UpEvent)
    (io : ProviderResponses) (p : Bool) (h : WalletInv s) :
    WalletInv (handleEvent s e) ∧
    ((init io p s).2 = none → WalletInv (init io p s).1) := by
  constructor
  · cases e with
    | accountsChanged accs =>
      simp [WalletInv, handleEvent, accountsChangedHandler]
    | contextAccountsChanged accs =>
      simp [WalletInv, handleEvent, contextAccountsChangedHandler]
    | chainChanged cid =>
      simpa [WalletInv, handleEvent, chainChangedHandler] using h
  · intro hlog
    obtain ⟨aResp, cResp, ctx⟩ := io
    by_cases hg : ((mkClient p s.chainId).isNone || !p) = true
    · simp [init, initTry, hg]
      exact h
    · cases aResp with
      | error ea => simp [init, initTry, hg] at hlog
      | ok accs =>
        cases cResp with
        | error ec => simp [init, initTry, hg] at hlog
        | ok cid => simp [init, initTry, hg, WalletInv]

/-- Witness for `walletConnected_inv_preserved` at the initial state, a
concrete event and concrete responses. -/
theorem walletConnected_inv_preserved_witness :
    WalletInv
      (handleEvent initialState (UpEvent.accountsChanged ["0xa"])) ∧
    ((init ⟨Except.ok [], Except.ok 1, []⟩ true initialState).2 = none →
      WalletInv (init ⟨Except.ok [], Except.ok 1, []⟩ true initialState).1) :=
  walletConnected_inv_preserved initialState
    (UpEvent.accountsChanged ["0xa"]) ⟨Except.ok [], Except.ok 1, []⟩ true
    (by decide)

/-- Removing a listener that does not occur in a prefix skips the prefix. -/
theorem removeListener_append_of_not_mem (ls ys : List Listener)
    (l : Listener) (h : l ∉ ls) :
    removeListener (ls ++ ys) l = ls ++ removeListener ys l := by
  induction ls with
  | nil => rfl
  | cons x xs ih =>
    have hxl : ¬ x = l := by
      intro hx
      exact h (by simp [hx])
    have hmem : l ∉ xs := fun hm => h (List.mem_cons_of_mem _ hm)
    simp only [List.cons_append, removeListener, if_neg hxl]
    exact congrArg (List.cons x) (ih hmem)

/-- C5: the cleanup function returned by an effect run removes exactly the
three listeners (`accountsChanged`, `chainChanged`,
`contextAccountsChanged`) that the same run registered, restoring the
provider's listener table; the hypothesis states that the run's closures
are fresh, i.e. not already registered (distinct effect runs create
distinct closure objects).  When the provider is absent, nothing is
registered and nothing is removed. -/
theorem cleanup_removes_registered (p : Bool) (r : Nat)
    (ls : List Listener) (h : ∀ l ∈ ls, l.runId ≠ r) :
    cleanupListeners p r (registerListeners p r ls) = ls := by
  cases p with
  | false => rfl
  | true =>
    have hA : Listener.mk "accountsChanged" r ∉ ls := fun hm => h _ hm rfl
    have hCh : Listener.mk "chainChanged" r ∉ ls := fun hm => h _ hm rfl
    have hCtx : Listener.mk "contextAccountsChanged" r ∉ ls :=
      fun hm => h _ hm rfl
    have hreg : registerListeners true r ls =
        ls ++ [⟨"accountsChanged", r⟩, ⟨"chainChanged", r⟩,
          ⟨"contextAccountsChanged", r⟩] := by
      simp [registerListeners, providerOn]
    unfold cleanupListeners
    rw [if_pos rfl, hreg]
    rw [removeListener_append_of_not_mem ls _ _ hA]
    have e1 : removeListener
        [⟨"accountsChanged", r⟩, ⟨"chainChanged", r⟩,
          ⟨"contextAccountsChanged", r⟩] ⟨"accountsChanged", r⟩ =
        [⟨"chainChanged", r⟩, ⟨"contextAccountsChanged", r⟩] := by
      simp [removeListener]
    rw [e1, removeListener_append_of_not_mem ls _ _ hCtx]
    have e2 : removeListener
        [⟨"chainChanged", r⟩, ⟨"contextAccountsChanged", r⟩]
          ⟨"contextAccountsChanged", r⟩ = [⟨"chainChanged", r⟩] := by
      simp [removeListener]
    rw [e2, removeListener_append_of_not_mem ls _ _ hCh]
    have e3 : removeListener [⟨"chainChanged", r⟩] ⟨"chainChanged", r⟩ =
        ([] : List Listener) := by
      simp [removeListener]
    rw [e3, List.append_nil]

/-- Witness for `cleanup_removes_registered`: effect run 1 on a table that
already holds run 0 listeners. -/
theorem cleanup_removes_registered_witness :
    cleanupListeners true 1
      (registerListeners true 1 [⟨"accountsChanged", 0⟩]) =
      [⟨"accountsChanged", 0⟩] :=
  cleanup_removes_registered true 1 [⟨"accountsChanged", 0⟩] (by decide)
